import Mathlib

/-!
Verification development for the `idk-dashboard` repository.

The repository's logic lives in `src/services/apiService.ts` (classes
`CalitateAerService`, `CopernicusService`, `DataService`) and in the
`BucharestDashboard` React component.  This file gives a shallow embedding of
that code:

* JavaScript numbers are modelled as rationals (`ℚ`); `Math.floor` and
  `Math.round` become `Rat`-level floor operations.
* Every upstream HTTP call is modelled through an `Env` record holding the
  outcome of each endpoint (`none` = the call rejected: network error, auth
  failure, timeout or a malformed body — all of which surface as a rejected
  promise or a thrown parse error and land in the same `catch`).
* `Math.random()` draws are modelled as a stream `Env.rand : ℕ → ℚ` consumed
  at fixed indices, `Math.sin` as an abstract function `Env.sinv`, `Math.PI`
  as `Env.piv`, and date formatting as abstract string producers, so the
  synthetic-data generators stay executable.
* `async` methods that can reject are `Except ApiError _`; a `try { … }
  catch { return fallback }` becomes a `match` collapsing the error branch
  to `.ok fallback`, and a rethrow is the ordinary `Except` bind.
* Absent numeric fields of an upstream JSON body behave as `0` in the source
  (both through `x || 0` defaulting and through the `x ? _ : 0` truthiness
  test inside `calculateAQI`), so raw measurement records carry plain `ℚ`
  fields with absence already mapped to `0`.

The Batteries rational operations are restored to their definitional
reducibility so that concrete counterexamples and witnesses can be settled
by `decide`; this only affects elaboration, not kernel soundness.
-/

set_option allowUnsafeReducibility true

attribute [semireducible] Rat.mul Rat.add Rat.inv Rat.sub Rat.neg Rat.div Rat.ofScientific

/-- JavaScript `Math.round` on a rational: round half toward positive
infinity, i.e. `⌊q + 1/2⌋` (via the executable `Rat.floor`). -/
def jsRound (q : ℚ) : ℤ := (q + 1/2).floor

/-- JavaScript `Math.floor` on a rational (via the executable `Rat.floor`). -/
def jsFloor (q : ℚ) : ℤ := q.floor

/-- JavaScript `Math.min` on two (non-NaN) numbers. -/
def jsMin (a b : ℚ) : ℚ := if a ≤ b then a else b

/-- JavaScript `Math.max` on two (non-NaN) numbers. -/
def jsMax (a b : ℚ) : ℚ := if a ≤ b then b else a

/-- JavaScript `a || b` for an optional numeric `a`: the default is used both
when the field is absent and when it is `0` (zero is falsy). -/
def jsOr (a : Option ℚ) (b : ℚ) : ℚ :=
  match a with
  | some q => if q = 0 then b else q
  | none => b

/-- The character list `pat` matches at the head of `s`. -/
def matchesAt : List Char → List Char → Bool
  | [], _ => true
  | _ :: _, [] => false
  | p :: ps, c :: cs => p == c && matchesAt ps cs

/-- The character list `pat` occurs somewhere inside `s`. -/
def occursIn (pat : List Char) : List Char → Bool
  | [] => pat.isEmpty
  | c :: cs => matchesAt pat (c :: cs) || occursIn pat cs

/-- JavaScript `String.prototype.includes`: `pat` occurs as a substring of
`s`. -/
def strIncludes (s pat : String) : Bool := occursIn pat.data s.data

/-- JavaScript `String.prototype.toLowerCase` (character-wise). -/
def lowerStr (s : String) : String := ⟨s.data.map Char.toLower⟩

/-- Raw station record of the `GET /stations` response body
(`apiService.ts`, `getStations`).  Coordinates arrive as strings and are
`parseFloat`ed by the source; the numeric value is modelled directly. -/
structure RawStation where
  id : ℕ
  name : String
  latitude : ℚ
  longitude : ℚ
  county : String
  city : Option String
deriving DecidableEq

/-- `AirQualityMeasurement` of `apiService.ts` / `types/index.ts`:
named pollutant concentrations; absence is represented as zero. -/
structure AirQualityMeasurement where
  pm25 : ℚ
  pm10 : ℚ
  no2 : ℚ
  o3 : ℚ
  so2 : ℚ
  co : ℚ
deriving DecidableEq

/-- Raw body of `GET /measurements/station/{id}/current`.  The concentrations
are read through `data.pm25 || 0` etc.; the payload may additionally carry an
upstream-computed `aqi` field, which the source code never reads (it always
recomputes the index with `calculateAQI`). -/
structure RawCurrentResponse where
  meas : AirQualityMeasurement
  upstreamAqi : Option ℚ
deriving DecidableEq

/-- Raw item of the `GET /measurements/station/{id}/historical` response. -/
structure RawHistItem where
  date : String
  meas : AirQualityMeasurement
deriving DecidableEq

/-- Raw body of the Copernicus weather endpoints. -/
structure RawWeather where
  time : String
  temperature : ℚ
  humidity : ℚ
  windSpeed : ℚ
  pressure : ℚ
  uvIndex : Option ℚ
deriving DecidableEq

/-- `Station` of `apiService.ts`. -/
structure Station where
  id : ℕ
  name : String
  lat : ℚ
  lon : ℚ
  county : String
  city : Option String
deriving DecidableEq

/-- `AirQualityData` of `apiService.ts`. -/
structure AirQualityData where
  stationId : ℕ
  stationName : String
  timestamp : String
  measurements : AirQualityMeasurement
  aqi : ℚ
deriving DecidableEq

/-- `WeatherData` of `apiService.ts`. -/
structure WeatherData where
  timestamp : String
  temperature : ℚ
  humidity : ℚ
  windSpeed : ℚ
  pressure : ℚ
  uvIndex : ℚ
deriving DecidableEq

/-- `HistoricalDataPoint` of `apiService.ts`. -/
structure HistoricalDataPoint where
  date : String
  aqi : ℚ
  pm25 : ℚ
  pm10 : ℚ
  temperature : Option ℚ
deriving DecidableEq

/-- One-constructor error type standing for a rejected upstream promise
(`UpstreamUnavailable` in the spec's taxonomy: network, auth, timeout, or a
malformed response body). -/
inductive ApiError where
  | upstream : ApiError
deriving DecidableEq

/-- Outcome of one aggregation run's world: the response of every upstream
endpoint (`none` = the call rejects), plus the ambient JavaScript runtime
pieces the code consumes (`Math.random` stream, `Math.sin`, `Math.PI`,
current hour, date formatting). -/
structure Env where
  stationsResp : Option (List RawStation)
  currentResp : ℕ → Option RawCurrentResponse
  historicalResp : ℕ → Option (List RawHistItem)
  weatherResp : Option RawWeather
  forecastResp : Option (List RawWeather)
  rand : ℕ → ℚ
  sinv : ℚ → ℚ
  piv : ℚ
  hourOfDay : ℕ
  nowISO : String
  dayISO : ℕ → String
  hourISO : ℕ → String

/-- Bucharest filter of `getStations`: `county === 'BUCURESTI' ||
city?.toLowerCase().includes('bucuresti') ||
name?.toLowerCase().includes('bucuresti')`. -/
def isBucharest (s : RawStation) : Bool :=
  s.county == "BUCURESTI"
    || ((s.city.map fun c => strIncludes (lowerStr c) "bucuresti").getD false)
    || strIncludes (lowerStr s.name) "bucuresti"

/-- Mapping of a raw station record to `Station` (`getStations`). -/
def stationOfRaw (r : RawStation) : Station :=
  { id := r.id, name := r.name, lat := r.latitude, lon := r.longitude,
    county := r.county, city := r.city }

/-- `CalitateAerService.getMockStations`: five hard-coded Bucharest
stations.  The method takes no argument describing how many stations are
wanted. -/
def CalitateAerService.getMockStations : List Station :=
  [ { id := 1, name := "Calea Plevnei", lat := 44.4378, lon := 26.0875,
      county := "BUCURESTI", city := none },
    { id := 2, name := "Drumul Taberei", lat := 44.4247, lon := 26.0301,
      county := "BUCURESTI", city := none },
    { id := 3, name := "Berceni", lat := 44.3876, lon := 26.1186,
      county := "BUCURESTI", city := none },
    { id := 4, name := "Titan", lat := 44.4334, lon := 26.1496,
      county := "BUCURESTI", city := none },
    { id := 5, name := "Ambasada", lat := 44.4601, lon := 26.0844,
      county := "BUCURESTI", city := none } ]

/-- `CalitateAerService.getStations`: fetch `/stations`, filter to the
Bucharest region and map to `Station`; the `catch` branch substitutes the
mock station list.  The `Except` return type records that the promise could
in principle reject (the `catch` could have rethrown). -/
def CalitateAerService.getStations (env : Env) : Except ApiError (List Station) :=
  match env.stationsResp with
  | some raws => .ok ((raws.filter isBucharest).map stationOfRaw)
  | none => .ok CalitateAerService.getMockStations

/-- One sub-index of `CalitateAerService.calculateAQI`:
`conc ? Math.min((conc / ref) * 100, 300) : 0` — a falsy (zero)
concentration contributes `0`. -/
def subIndex (conc ref : ℚ) : ℚ :=
  if conc = 0 then 0 else jsMin (conc / ref * 100) 300

/-- Maximum of the three sub-indices computed by `calculateAQI`
(`Math.max(pm25AQI, pm10AQI, no2AQI)` before the final rounding). -/
def maxSubIndex (m : AirQualityMeasurement) : ℚ :=
  jsMax (subIndex m.pm25 35.4) (jsMax (subIndex m.pm10 154) (subIndex m.no2 100))

/-- `CalitateAerService.calculateAQI`: `Math.round` of the maximum of the
three sub-indices (pm25 against 35.4, pm10 against 154, no2 against 100;
o3, so2 and co are destructured but never used). -/
def CalitateAerService.calculateAQI (m : AirQualityMeasurement) : ℚ :=
  ((jsRound (maxSubIndex m) : ℤ) : ℚ)

/-- Body of the per-station promise of `getCurrentAirQuality` in the success
case: build an `AirQualityData` from the raw response.  The `aqi` field is
recomputed with `calculateAQI`; `raw.upstreamAqi` is never read. -/
def buildSample (env : Env) (stations : List Station) (stationId : ℕ)
    (raw : RawCurrentResponse) : AirQualityData :=
  { stationId := stationId,
    stationName := ((stations.find? fun s => s.id = stationId).map (·.name)).getD "Unknown",
    timestamp := env.nowISO,
    measurements := raw.meas,
    aqi := CalitateAerService.calculateAQI raw.meas }

/-- One per-station promise of `getCurrentAirQuality`: its own
`try/catch` returns `null` when the station's call fails. -/
def perStationCurrent (env : Env) (stations : List Station) (stationId : ℕ) :
    Option AirQualityData :=
  match env.currentResp stationId with
  | some raw => some (buildSample env stations stationId raw)
  | none => none

/-- `CalitateAerService.getMockAirQuality`: one sample per mock station with
independently drawn random measurements and a random `aqi` field
(`Math.floor(Math.random() * 150) + 25`) that is *not* derived from the
measurements.  Random draws are indexed in source evaluation order. -/
def CalitateAerService.getMockAirQuality (env : Env) : List AirQualityData :=
  CalitateAerService.getMockStations.enum.map fun p =>
    { stationId := p.2.id,
      stationName := p.2.name,
      timestamp := env.nowISO,
      measurements :=
        { pm25 := (jsFloor (env.rand (7 * p.1) * 50) : ℚ) + 10,
          pm10 := (jsFloor (env.rand (7 * p.1 + 1) * 80) : ℚ) + 20,
          no2 := (jsFloor (env.rand (7 * p.1 + 2) * 60) : ℚ) + 15,
          o3 := (jsFloor (env.rand (7 * p.1 + 3) * 120) : ℚ) + 30,
          so2 := (jsFloor (env.rand (7 * p.1 + 4) * 30) : ℚ) + 5,
          co := (jsFloor (env.rand (7 * p.1 + 5) * 10) : ℚ) + 2 },
      aqi := (jsFloor (env.rand (7 * p.1 + 6) * 150) : ℚ) + 25 }

/-- `CalitateAerService.getCurrentAirQuality`: fetch the station list, issue
one fault-contained call per station id, await them all and drop the `null`
results.  The outer `catch` would substitute `getMockAirQuality`, but every
inner call already absorbs its own failure. -/
def CalitateAerService.getCurrentAirQuality (env : Env) :
    Except ApiError (List AirQualityData) :=
  match CalitateAerService.getStations env with
  | .ok stations =>
      .ok (((stations.map (·.id)).filterMap (perStationCurrent env stations)))
  | .error _ => .ok (CalitateAerService.getMockAirQuality env)

/-- `CalitateAerService.getMockHistoricalData`: thirty synthetic days built
from `Math.sin` and `Math.random`; the method takes no argument describing
how many days are wanted. -/
def CalitateAerService.getMockHistoricalData (env : Env) : List HistoricalDataPoint :=
  (List.range 30).map fun i =>
    { date := env.dayISO i,
      aqi := 50 + env.sinv ((i : ℚ) * (2/10)) * 30 + env.rand (1000 + 3 * i) * 20,
      pm25 := 20 + env.sinv ((i : ℚ) * (3/10)) * 15 + env.rand (1001 + 3 * i) * 10,
      pm10 := 35 + env.sinv ((i : ℚ) * (1/4)) * 20 + env.rand (1002 + 3 * i) * 15,
      temperature := none }

/-- `CalitateAerService.getHistoricalAirQuality`: date-ranged historical
query for one station (the date parameters are elided: the response is keyed
by station id); each item's `aqi` is recomputed with `calculateAQI`; the
`catch` substitutes the mock historical data. -/
def CalitateAerService.getHistoricalAirQuality (env : Env) (stationId : ℕ) :
    Except ApiError (List HistoricalDataPoint) :=
  match env.historicalResp stationId with
  | some items =>
      .ok (items.map fun it =>
        { date := it.date,
          aqi := CalitateAerService.calculateAQI it.meas,
          pm25 := it.meas.pm25,
          pm10 := it.meas.pm10,
          temperature := none })
  | none => .ok (CalitateAerService.getMockHistoricalData env)

/-- `CopernicusService.getMockWeatherData`: diurnal synthetic current
weather (`18 + Math.sin((hour - 6) * Math.PI / 12) * 8 + Math.random() * 2`,
etc.). -/
def CopernicusService.getMockWeatherData (env : Env) : WeatherData :=
  { timestamp := env.nowISO,
    temperature := 18 + env.sinv (((env.hourOfDay : ℚ) - 6) * env.piv / 12) * 8
      + env.rand 500 * 2,
    humidity := 45 + env.rand 501 * 30,
    windSpeed := 5 + env.rand 502 * 10,
    pressure := 1010 + env.rand 503 * 20,
    uvIndex := jsMax 0 (env.sinv (((env.hourOfDay : ℚ) - 6) * env.piv / 12) * 8) }

/-- `CopernicusService.getCurrentWeather`: current conditions; the `uvIndex`
field defaults through `data.uvIndex || Math.random() * 8`; the `catch`
substitutes the mock weather. -/
def CopernicusService.getCurrentWeather (env : Env) : Except ApiError WeatherData :=
  match env.weatherResp with
  | some d =>
      .ok { timestamp := env.nowISO,
            temperature := d.temperature,
            humidity := d.humidity,
            windSpeed := d.windSpeed,
            pressure := d.pressure,
            uvIndex := jsOr d.uvIndex (env.rand 600 * 8) }
  | none => .ok (CopernicusService.getMockWeatherData env)

/-- `CopernicusService.getMockHourlyData`: twenty-four synthetic hourly
samples. -/
def CopernicusService.getMockHourlyData (env : Env) : List WeatherData :=
  (List.range 24).map fun i =>
    { timestamp := env.hourISO i,
      temperature := 18 + env.sinv (((i : ℚ) - 6) * env.piv / 12) * 8
        + env.rand (520 + 4 * i) * 2,
      humidity := 45 + env.rand (521 + 4 * i) * 30,
      windSpeed := 5 + env.rand (522 + 4 * i) * 10,
      pressure := 1010 + env.rand (523 + 4 * i) * 20,
      uvIndex := jsMax 0 (env.sinv (((i : ℚ) - 6) * env.piv / 12) * 8) }

/-- `CopernicusService.getHourlyForecast`: 24-point forecast; items default
`uvIndex` through `item.uvIndex || 0`; the `catch` substitutes the mock
hourly data. -/
def CopernicusService.getHourlyForecast (env : Env) : Except ApiError (List WeatherData) :=
  match env.forecastResp with
  | some items =>
      .ok (items.map fun it =>
        { timestamp := it.time,
          temperature := it.temperature,
          humidity := it.humidity,
          windSpeed := it.windSpeed,
          pressure := it.pressure,
          uvIndex := jsOr it.uvIndex 0 })
  | none => .ok (CopernicusService.getMockHourlyData env)

/-- Branch of `DataService.getHistoricalData` taken when the station list
is non-empty: await the first station's historical query, falling back to
the mock data if it rejects (the enclosing `catch`). -/
def histPrimary (env : Env) (s0 : Station) :
    Except ApiError (List HistoricalDataPoint) :=
  match CalitateAerService.getHistoricalAirQuality env s0.id with
  | .ok v => .ok v
  | .error _ => .ok (CalitateAerService.getMockHistoricalData env)

/-- `DataService.getHistoricalData`: compute the 30-day window, fetch the
station list, and query historical data for the *first* station when the
list is non-empty, else return the mock historical data directly.  The
second component of the result records the station ids for which a
historical measurements query was sent upstream (the source sends exactly
one such request, in the non-empty branch). -/
def DataService.getHistoricalData (env : Env) :
    Except ApiError (List HistoricalDataPoint) × List ℕ :=
  match CalitateAerService.getStations env with
  | .ok (s0 :: _) => (histPrimary env s0, [s0.id])
  | .ok [] => (.ok (CalitateAerService.getMockHistoricalData env), [])
  | .error _ => (.ok (CalitateAerService.getMockHistoricalData env), [])

/-- Aggregated result of `DataService.getAllDashboardData`. -/
structure DashboardData where
  airQuality : List AirQualityData
  weatherCurrent : WeatherData
  weatherHourly : List WeatherData
  stations : List Station
  historical : List HistoricalDataPoint
  lastUpdated : String
deriving DecidableEq

/-- `DataService.getAllDashboardData`: `Promise.all` over the five top-level
fetches, merged into one result stamped with the construction time; the
surrounding `try/catch` rethrows any error of the five awaited calls
(ordinary `Except` bind). -/
def DataService.getAllDashboardData (env : Env) : Except ApiError DashboardData := do
  let airQualityData ← CalitateAerService.getCurrentAirQuality env
  let currentWeather ← CopernicusService.getCurrentWeather env
  let hourlyForecast ← CopernicusService.getHourlyForecast env
  let stations ← CalitateAerService.getStations env
  let historicalAirQuality ← (DataService.getHistoricalData env).1
  pure { airQuality := airQualityData,
         weatherCurrent := currentWeather,
         weatherHourly := hourlyForecast,
         stations := stations,
         historical := historicalAirQuality,
         lastUpdated := env.nowISO }

/-- `DataService.calculateAverageAQI`: `0` for an empty list, else the
`reduce`-accumulated sum of the `aqi` fields divided by the length. -/
def DataService.calculateAverageAQI (airQualityData : List AirQualityData) : ℚ :=
  if airQualityData.length = 0 then 0
  else (airQualityData.foldl (fun acc station => acc + station.aqi) 0) / airQualityData.length

/-- `DataService.getAQILevel` (static utility). -/
def DataService.getAQILevel (aqi : ℚ) : String :=
  if aqi ≤ 50 then "Bună"
  else if aqi ≤ 100 then "Moderată"
  else if aqi ≤ 150 then "Nesănătoasă pentru grupuri sensibile"
  else if aqi ≤ 200 then "Nesănătoasă"
  else "Foarte nesănătoasă"

/-- `DataService.getAQIColor` (static utility). -/
def DataService.getAQIColor (aqi : ℚ) : String :=
  if aqi ≤ 50 then "#4ade80"
  else if aqi ≤ 100 then "#facc15"
  else if aqi ≤ 150 then "#fb923c"
  else if aqi ≤ 200 then "#ef4444"
  else "#991b1b"

/-- `AirQualityStation` of the `BucharestDashboard` component. -/
structure AirQualityStation where
  station : String
  pm25 : ℚ
  pm10 : ℚ
  no2 : ℚ
  o3 : ℚ
  so2 : ℚ
  aqi : ℚ
deriving DecidableEq

/-- `getAQIColor` defined locally inside the `AQIGauge` component. -/
def AQIGauge.getAQIColor (aqi : ℚ) : String :=
  if aqi ≤ 50 then "#4ade80"
  else if aqi ≤ 100 then "#facc15"
  else if aqi ≤ 150 then "#fb923c"
  else if aqi ≤ 200 then "#ef4444"
  else "#991b1b"

/-- `getAQILevel` defined locally inside the `AQIGauge` component. -/
def AQIGauge.getAQILevel (aqi : ℚ) : String :=
  if aqi ≤ 50 then "Bună"
  else if aqi ≤ 100 then "Moderată"
  else if aqi ≤ 150 then "Nesănătoasă pentru grupuri sensibile"
  else if aqi ≤ 200 then "Nesănătoasă"
  else "Foarte nesănătoasă"

/-- `averageAQI` computed inside `BucharestDashboard`:
`length > 0 ? reduce((sum, st) => sum + st.aqi, 0) / length : 0`. -/
def BucharestDashboard.averageAQI (airQualityData : List AirQualityStation) : ℚ :=
  if 0 < airQualityData.length
  then (airQualityData.foldl (fun sum station => sum + station.aqi) 0) / airQualityData.length
  else 0

/-- Advisory string pushed by `BucharestDashboard` when the average index
exceeds 100. -/
def BucharestDashboard.alertMessage : String :=
  "Calitatea aerului este nesănătoasă pentru grupuri sensibile. Se recomandă limitarea activităților în exterior."

/-- Alert list of `BucharestDashboard`: starts empty and receives exactly
one advisory when `averageAQI > 100`. -/
def BucharestDashboard.alertsFor (averageAQI : ℚ) : List String :=
  if averageAQI > 100 then [BucharestDashboard.alertMessage] else []

/-- Result delivered by one settling data-load cycle of the
`BucharestDashboard` effect (`loadData` or an interval tick), tagged with
the tick at which the cycle started. -/
structure LoadResult where
  cycleStart : ℕ
  airQuality : List AirQualityStation
deriving DecidableEq

/-- Effect of one cycle settling on the component state: the callbacks at
the end of `loadData` and in the interval handler call
`setAirQualityData(...)` unconditionally — no cycle identifier is compared,
so whatever settles last overwrites the state. -/
def BucharestDashboard.applySettle (_ : Option LoadResult) (arriving : LoadResult) :
    Option LoadResult :=
  some arriving

/-- Component state after a sequence of cycle settlements, applied in
settlement (completion) order. -/
def BucharestDashboard.runSettles (init : Option LoadResult)
    (arrivals : List LoadResult) : Option LoadResult :=
  arrivals.foldl BucharestDashboard.applySettle init

/-! Helper lemmas about the JavaScript arithmetic helpers. -/

theorem jsFloor_eq (q : ℚ) : jsFloor q = ⌊q⌋ := by
  rw [jsFloor, Rat.floor_def', Rat.floor_def]

theorem jsRound_eq (q : ℚ) : jsRound q = ⌊q + 1/2⌋ := by
  rw [jsRound, Rat.floor_def', Rat.floor_def]

theorem jsRound_nonneg {q : ℚ} (h : 0 ≤ q) : 0 ≤ jsRound q := by
  rw [jsRound]
  exact Rat.le_floor.mpr (by push_cast; linarith)

theorem jsRound_le_300 {q : ℚ} (h : q ≤ 300) : jsRound q ≤ 300 := by
  rw [jsRound]
  by_contra hc
  push_neg at hc
  have h301 : (301 : ℤ) ≤ (q + 1/2).floor := hc
  have := Rat.le_floor.mp h301
  push_cast at this
  linarith

theorem jsMin_le_right (a b : ℚ) : jsMin a b ≤ b := by
  rw [jsMin]; split <;> linarith

theorem jsMin_nonneg {a b : ℚ} (ha : 0 ≤ a) (hb : 0 ≤ b) : 0 ≤ jsMin a b := by
  rw [jsMin]; split <;> assumption

theorem jsMax_le {a b c : ℚ} (ha : a ≤ c) (hb : b ≤ c) : jsMax a b ≤ c := by
  rw [jsMax]; split <;> assumption

theorem jsMax_nonneg {a b : ℚ} (ha : 0 ≤ a) (hb : 0 ≤ b) : 0 ≤ jsMax a b := by
  rw [jsMax]; split <;> assumption

theorem subIndex_nonneg {conc ref : ℚ} (hc : 0 ≤ conc) (hr : 0 < ref) :
    0 ≤ subIndex conc ref := by
  rw [subIndex]
  split
  · exact le_refl 0
  · exact jsMin_nonneg (by positivity) (by norm_num)

theorem subIndex_le_300 (conc ref : ℚ) : subIndex conc ref ≤ 300 := by
  rw [subIndex]
  split
  · norm_num
  · exact jsMin_le_right _ _

theorem maxSubIndex_nonneg {m : AirQualityMeasurement}
    (h25 : 0 ≤ m.pm25) (h10 : 0 ≤ m.pm10) (hno2 : 0 ≤ m.no2) :
    0 ≤ maxSubIndex m := by
  rw [maxSubIndex]
  exact jsMax_nonneg (subIndex_nonneg h25 (by norm_num))
    (jsMax_nonneg (subIndex_nonneg h10 (by norm_num))
      (subIndex_nonneg hno2 (by norm_num)))

theorem maxSubIndex_le_300 (m : AirQualityMeasurement) : maxSubIndex m ≤ 300 := by
  rw [maxSubIndex]
  exact jsMax_le (subIndex_le_300 _ _) (jsMax_le (subIndex_le_300 _ _) (subIndex_le_300 _ _))

/-- Claim C2 counterexample: on the reading with `pm25 = 1` (all other
pollutants zero) the code returns the *rounded* maximum sub-index `3`,
which differs from the exact maximum sub-index `500/177 ≈ 2.82`: the
returned value does not equal the maximum of the three sub-indices. -/
theorem calculateAQI_rounding_cex :
    CalitateAerService.calculateAQI ⟨1, 0, 0, 0, 0, 0⟩ ≠
      maxSubIndex ⟨1, 0, 0, 0, 0, 0⟩ := by decide

/-- Claim C2 (amended): for every reading with non-negative concentrations
of the three regulated pollutants, `calculateAQI` equals the JavaScript
rounding (`⌊x + 1/2⌋`) of the maximum of the three sub-indices — pm25
scaled by 35.4, pm10 by 154, no2 by 100, each times 100 and capped at
300 — and is non-negative and at most 300; on the all-zero reading it
returns 0.  Determinism holds by construction (it is a pure function of
the reading). -/
theorem calculateAQI_spec (m : AirQualityMeasurement)
    (h25 : 0 ≤ m.pm25) (h10 : 0 ≤ m.pm10) (hno2 : 0 ≤ m.no2) :
    CalitateAerService.calculateAQI m = ((jsRound (maxSubIndex m) : ℤ) : ℚ) ∧
    0 ≤ CalitateAerService.calculateAQI m ∧
    CalitateAerService.calculateAQI m ≤ 300 ∧
    CalitateAerService.calculateAQI ⟨0, 0, 0, 0, 0, 0⟩ = 0 := by
  refine ⟨rfl, ?_, ?_, by decide⟩
  · rw [CalitateAerService.calculateAQI]
    exact_mod_cast jsRound_nonneg (maxSubIndex_nonneg h25 h10 hno2)
  · rw [CalitateAerService.calculateAQI]
    exact_mod_cast jsRound_le_300 (maxSubIndex_le_300 m)

/-- Witness for C2's amended theorem at the concrete reading
`⟨10, 20, 15, 30, 5, 2⟩`. -/
theorem calculateAQI_spec_witness :
    CalitateAerService.calculateAQI ⟨10, 20, 15, 30, 5, 2⟩ =
      ((jsRound (maxSubIndex ⟨10, 20, 15, 30, 5, 2⟩) : ℤ) : ℚ) ∧
    0 ≤ CalitateAerService.calculateAQI ⟨10, 20, 15, 30, 5, 2⟩ ∧
    CalitateAerService.calculateAQI ⟨10, 20, 15, 30, 5, 2⟩ ≤ 300 ∧
    CalitateAerService.calculateAQI ⟨0, 0, 0, 0, 0, 0⟩ = 0 :=
  calculateAQI_spec ⟨10, 20, 15, 30, 5, 2⟩ (by decide) (by decide) (by decide)

/-- Claim C9: the o3, so2 and co fields of a reading have no influence on
`calculateAQI` — any two readings agreeing on pm25, pm10 and no2 yield the
same index. -/
theorem calculateAQI_ignores_o3_so2_co (p25 p10 n2 a b c a' b' c' : ℚ) :
    CalitateAerService.calculateAQI ⟨p25, p10, n2, a, b, c⟩ =
      CalitateAerService.calculateAQI ⟨p25, p10, n2, a', b', c'⟩ := rfl

/-- Claim C10: the severity banding duplicated inside the `AQIGauge`
component and in the static `DataService` utilities agrees on every numeric
index value, both for the label and for the color. -/
theorem banding_implementations_agree (aqi : ℚ) :
    AQIGauge.getAQILevel aqi = DataService.getAQILevel aqi ∧
    AQIGauge.getAQIColor aqi = DataService.getAQIColor aqi := ⟨rfl, rfl⟩

/-- Accumulating a list through `reduce((acc, x) => acc + f x, a)` is the
start value plus the sum of the mapped values. -/
theorem foldl_add_eq {α : Type} (f : α → ℚ) (l : List α) (a : ℚ) :
    l.foldl (fun acc x => acc + f x) a = a + (l.map f).sum := by
  induction l generalizing a with
  | nil => simp
  | cons x xs ih => simp [ih, add_assoc]

/-- Claim C5: `DataService.calculateAverageAQI` (and the inline
`averageAQI` of `BucharestDashboard`) is `0` on an empty station set and
the arithmetic mean of the `aqi` fields otherwise, and the dashboard's
alert list holds exactly one sensitive-groups advisory when the mean index
exceeds 100 and is empty when it does not. -/
theorem averageAQI_and_alerts_spec (l : List AirQualityData) (hl : l ≠ [])
    (ld : List AirQualityStation) (hld : ld ≠ [])
    (mAbove mBelow : ℚ) (hAbove : 100 < mAbove) (hBelow : mBelow ≤ 100) :
    DataService.calculateAverageAQI [] = 0 ∧
    DataService.calculateAverageAQI l = (l.map (·.aqi)).sum / l.length ∧
    BucharestDashboard.averageAQI [] = 0 ∧
    BucharestDashboard.averageAQI ld = (ld.map (·.aqi)).sum / ld.length ∧
    (BucharestDashboard.alertsFor mAbove).length = 1 ∧
    BucharestDashboard.alertsFor mBelow = [] := by
  refine ⟨by simp [DataService.calculateAverageAQI], ?_, by simp [BucharestDashboard.averageAQI], ?_, ?_, ?_⟩
  · rw [DataService.calculateAverageAQI, if_neg (by simpa using hl), foldl_add_eq, zero_add]
  · rw [BucharestDashboard.averageAQI, if_pos (by simpa [List.length_pos] using hld),
      foldl_add_eq, zero_add]
  · rw [BucharestDashboard.alertsFor, if_pos hAbove]
    rfl
  · rw [BucharestDashboard.alertsFor, if_neg (not_lt.mpr hBelow)]

/-- Witness for C5 at a one-element station set and the mean values 120
and 80. -/
theorem averageAQI_and_alerts_spec_witness :
    DataService.calculateAverageAQI [] = 0 ∧
    DataService.calculateAverageAQI [⟨1, "A", "t", ⟨10, 20, 15, 30, 5, 2⟩, 28⟩] =
      (([⟨1, "A", "t", ⟨10, 20, 15, 30, 5, 2⟩, 28⟩] : List AirQualityData).map (·.aqi)).sum /
        ([⟨1, "A", "t", ⟨10, 20, 15, 30, 5, 2⟩, 28⟩] : List AirQualityData).length ∧
    BucharestDashboard.averageAQI [] = 0 ∧
    BucharestDashboard.averageAQI [⟨"A", 10, 20, 15, 30, 5, 120⟩] =
      (([⟨"A", 10, 20, 15, 30, 5, 120⟩] : List AirQualityStation).map (·.aqi)).sum /
        ([⟨"A", 10, 20, 15, 30, 5, 120⟩] : List AirQualityStation).length ∧
    (BucharestDashboard.alertsFor 120).length = 1 ∧
    BucharestDashboard.alertsFor 80 = [] :=
  averageAQI_and_alerts_spec [⟨1, "A", "t", ⟨10, 20, 15, 30, 5, 2⟩, 28⟩] (by decide)
    [⟨"A", 10, 20, 15, 30, 5, 120⟩] (by decide) 120 80 (by norm_num) (by norm_num)

/-- Environment in which every upstream call fails (all endpoint responses
rejected); the runtime pieces are fixed concretely. -/
def envAllFail : Env where
  stationsResp := none
  currentResp := fun _ => none
  historicalResp := fun _ => none
  weatherResp := none
  forecastResp := none
  rand := fun _ => 0
  sinv := fun _ => 0
  piv := 3
  hourOfDay := 12
  nowISO := "t"
  dayISO := fun _ => "d"
  hourISO := fun _ => "h"

/-- Claim C7 counterexample: the fallback generators take no
station-count or day-count request at all, and the only possible
invocation fabricates a fully synthetic non-empty dataset ex nihilo —
five stations and thirty historical days — never an empty sequence. -/
theorem mock_generators_fabricate_cex :
    CalitateAerService.getMockStations.length = 5 ∧
    (CalitateAerService.getMockHistoricalData envAllFail).length = 30 := by
  exact ⟨rfl, by simp [CalitateAerService.getMockHistoricalData]⟩

/-- Claim C7 (amended): `getMockStations` and `getMockHistoricalData` are
unparameterized; in every environment they return fixed-size fully
synthetic datasets of five stations and thirty days respectively. -/
theorem mock_generators_fixed_size (env : Env) :
    CalitateAerService.getMockStations.length = 5 ∧
    (CalitateAerService.getMockHistoricalData env).length = 30 := by
  exact ⟨rfl, by simp [CalitateAerService.getMockHistoricalData]⟩

/-- Result of the data-load cycle that starts first (cycle 1) but settles
last. -/
def staleLoad : LoadResult := ⟨1, []⟩

/-- Result of the data-load cycle that starts second (cycle 2) but settles
first. -/
def freshLoad : LoadResult := ⟨2, [⟨"Titan", 10, 20, 15, 30, 5, 40⟩]⟩

/-- Claim C8 counterexample: when cycle 1 starts before cycle 2 but
settles after it, the state ends up holding cycle 1's result — the stale
first cycle's settlement *does* replace the snapshot produced by the
second, because the effect callbacks store every settling result without
comparing cycle start order. -/
theorem stale_cycle_overwrites_cex :
    BucharestDashboard.runSettles none [freshLoad, staleLoad] = some staleLoad ∧
    staleLoad ≠ freshLoad := by decide

/-- Claim C8 (amended): snapshot replacement in the dashboard effect
follows settlement (completion) order, not cycle start order — after any
sequence of settlements the state holds exactly the last result to
settle. -/
theorem settle_replacement_completion_order (init : Option LoadResult)
    (pre : List LoadResult) (r : LoadResult) :
    BucharestDashboard.runSettles init (pre ++ [r]) = some r := by
  simp [BucharestDashboard.runSettles, List.foldl_append, BucharestDashboard.applySettle]

/-- Decidable equality for `Except` results, used to settle concrete
evaluations of the service calls. -/
instance exceptDecEq {ε α : Type} [DecidableEq ε] [DecidableEq α] :
    DecidableEq (Except ε α) := fun x y =>
  match x, y with
  | .ok a, .ok b =>
      if h : a = b then .isTrue (h ▸ rfl)
      else .isFalse (fun heq => h (Except.ok.inj heq))
  | .error e, .error f =>
      if h : e = f then .isTrue (h ▸ rfl)
      else .isFalse (fun heq => h (Except.error.inj heq))
  | .ok _, .error _ => .isFalse (fun heq => Except.noConfusion heq)
  | .error _, .ok _ => .isFalse (fun heq => Except.noConfusion heq)

/-! Totality of the service methods: every `catch` in the source returns a
fallback value, so none of the promises rejects. -/

theorem getStations_isOk (env : Env) :
    ∃ v, CalitateAerService.getStations env = .ok v := by
  unfold CalitateAerService.getStations
  cases env.stationsResp <;> exact ⟨_, rfl⟩

theorem getCurrentAirQuality_isOk (env : Env) :
    ∃ v, CalitateAerService.getCurrentAirQuality env = .ok v := by
  obtain ⟨v, hv⟩ := getStations_isOk env
  unfold CalitateAerService.getCurrentAirQuality
  rw [hv]
  exact ⟨_, rfl⟩

theorem getHistoricalAirQuality_isOk (env : Env) (stationId : ℕ) :
    ∃ v, CalitateAerService.getHistoricalAirQuality env stationId = .ok v := by
  unfold CalitateAerService.getHistoricalAirQuality
  cases env.historicalResp stationId <;> exact ⟨_, rfl⟩

theorem getCurrentWeather_isOk (env : Env) :
    ∃ v, CopernicusService.getCurrentWeather env = .ok v := by
  unfold CopernicusService.getCurrentWeather
  cases env.weatherResp <;> exact ⟨_, rfl⟩

theorem getHourlyForecast_isOk (env : Env) :
    ∃ v, CopernicusService.getHourlyForecast env = .ok v := by
  unfold CopernicusService.getHourlyForecast
  cases env.forecastResp <;> exact ⟨_, rfl⟩

theorem histPrimary_isOk (env : Env) (s0 : Station) :
    ∃ v, histPrimary env s0 = .ok v := by
  obtain ⟨w, hw⟩ := getHistoricalAirQuality_isOk env s0.id
  unfold histPrimary
  rw [hw]
  exact ⟨_, rfl⟩

theorem getHistoricalData_fst_isOk (env : Env) :
    ∃ v, (DataService.getHistoricalData env).1 = .ok v := by
  obtain ⟨v, hv⟩ := getStations_isOk env
  unfold DataService.getHistoricalData
  rw [hv]
  match v with
  | [] => exact ⟨_, rfl⟩
  | s0 :: rest => exact histPrimary_isOk env s0

/-- Claim C1: the aggregation never rejects — for every combination of
upstream outcomes `getAllDashboardData` returns a result — but in the
environment where *every* upstream call fails the air-quality field of the
returned result is the empty list (no fallback), while weather, forecast,
stations and history are fallback-filled (24, 5 and 30 entries); the
`getMockAirQuality` fallback is unreachable because every inner call of
`getCurrentAirQuality` already absorbs its own failure. -/
theorem getAllDashboardData_total_allFail_empty_airQuality :
    (∀ env : Env, ∃ d, DataService.getAllDashboardData env = .ok d) ∧
    (DataService.getAllDashboardData envAllFail).map
      (fun d => (d.airQuality, d.weatherHourly.length, d.stations.length,
        d.historical.length, d.lastUpdated)) =
      .ok ([], 24, 5, 30, "t") := by
  constructor
  · intro env
    obtain ⟨a, ha⟩ := getCurrentAirQuality_isOk env
    obtain ⟨w, hw⟩ := getCurrentWeather_isOk env
    obtain ⟨f, hf⟩ := getHourlyForecast_isOk env
    obtain ⟨s, hs⟩ := getStations_isOk env
    obtain ⟨h, hh⟩ := getHistoricalData_fst_isOk env
    refine ⟨{ airQuality := a, weatherCurrent := w, weatherHourly := f,
              stations := s, historical := h, lastUpdated := env.nowISO }, ?_⟩
    unfold DataService.getAllDashboardData
    rw [ha, hw, hf, hs, hh]
    rfl
  · rfl

/-- Claim C6: `getHistoricalData` queries historical data for the *first*
station of the station list returned by `getStations` (recording exactly
that one upstream historical request), and when the returned station list
is empty it returns the fallback generator's output directly, issuing no
historical request at all. -/
theorem getHistoricalData_first_station (env env' : Env) (s0 : Station)
    (rest : List Station)
    (h : CalitateAerService.getStations env = .ok (s0 :: rest))
    (h' : CalitateAerService.getStations env' = .ok []) :
    ((DataService.getHistoricalData env).2 = [s0.id] ∧
     (DataService.getHistoricalData env).1 =
       CalitateAerService.getHistoricalAirQuality env s0.id) ∧
    DataService.getHistoricalData env' =
      (.ok (CalitateAerService.getMockHistoricalData env'), []) := by
  refine ⟨⟨?_, ?_⟩, ?_⟩
  · unfold DataService.getHistoricalData
    rw [h]
  · unfold DataService.getHistoricalData
    rw [h]
    obtain ⟨w, hw⟩ := getHistoricalAirQuality_isOk env s0.id
    show histPrimary env s0 = CalitateAerService.getHistoricalAirQuality env s0.id
    unfold histPrimary
    rw [hw]
  · unfold DataService.getHistoricalData
    rw [h']

/-- Environment whose station listing succeeds with one Bucharest station
and whose historical endpoint succeeds. -/
def envHist : Env := { envAllFail with
  stationsResp := some [⟨1, "S1", 44, 26, "BUCURESTI", none⟩],
  historicalResp := fun _ => some [⟨"2025-01-01", ⟨10, 20, 15, 30, 5, 2⟩⟩] }

/-- Environment whose station listing succeeds but yields no Bucharest
station. -/
def envEmptyStations : Env := { envAllFail with stationsResp := some [] }

/-- Witness for C6 at the concrete environments `envHist` (one station)
and `envEmptyStations` (empty station list). -/
theorem getHistoricalData_first_station_witness :
    ((DataService.getHistoricalData envHist).2 = [1] ∧
     (DataService.getHistoricalData envHist).1 =
       CalitateAerService.getHistoricalAirQuality envHist 1) ∧
    DataService.getHistoricalData envEmptyStations =
      (.ok (CalitateAerService.getMockHistoricalData envEmptyStations), []) :=
  getHistoricalData_first_station envHist envEmptyStations
    ⟨1, "S1", 44, 26, "BUCURESTI", none⟩ [] rfl rfl

/-- Claim C4: every `AirQualitySample` that appears in the batch result of
`getCurrentAirQuality` carries an index recomputed by `calculateAQI` from
its own measurements, and the sample builder ignores any upstream-supplied
`aqi` value (two raw responses differing only in `upstreamAqi` yield the
same sample).  The fabricated-index mock path (`getMockAirQuality`) never
contributes samples to the batch result, because the `catch` that would
invoke it is unreachable. -/
theorem index_always_recomputed (env : Env) (l : List AirQualityData)
    (h : CalitateAerService.getCurrentAirQuality env = .ok l)
    (d : AirQualityData) (hd : d ∈ l) :
    d.aqi = CalitateAerService.calculateAQI d.measurements ∧
    ∀ (stations : List Station) (i : ℕ) (m : AirQualityMeasurement) (u u' : Option ℚ),
      buildSample env stations i ⟨m, u⟩ = buildSample env stations i ⟨m, u'⟩ := by
  refine ⟨?_, fun stations i m u u' => rfl⟩
  obtain ⟨sts, hsts⟩ := getStations_isOk env
  unfold CalitateAerService.getCurrentAirQuality at h
  rw [hsts] at h
  have h2 : Except.ok (((sts.map (·.id)).filterMap (perStationCurrent env sts))) =
      (Except.ok l : Except ApiError (List AirQualityData)) := h
  have hl := Except.ok.inj h2
  rw [← hl] at hd
  obtain ⟨i, hi, hsome⟩ := List.mem_filterMap.mp hd
  unfold perStationCurrent at hsome
  cases hc : env.currentResp i with
  | none =>
    simp only [hc] at hsome
    exact Option.noConfusion hsome
  | some raw =>
    simp only [hc, Option.some.injEq] at hsome
    rw [← hsome]
    rfl

/-- Environment with one station whose current-measurement response also
carries an upstream `aqi` value (999) that the code must ignore. -/
def envOne : Env := { envAllFail with
  stationsResp := some [⟨1, "A", 44, 26, "BUCURESTI", none⟩],
  currentResp := fun i =>
    if i = 1 then some ⟨⟨10, 20, 15, 30, 5, 2⟩, some 999⟩ else none }

/-- Witness for C4 at `envOne`: the single returned sample has index 28 =
`calculateAQI` of its measurements (not the upstream 999), and the sample
builder is insensitive to the upstream `aqi` field. -/
theorem index_always_recomputed_witness :
    (⟨1, "A", "t", ⟨10, 20, 15, 30, 5, 2⟩, 28⟩ : AirQualityData).aqi =
      CalitateAerService.calculateAQI
        (⟨1, "A", "t", ⟨10, 20, 15, 30, 5, 2⟩, 28⟩ : AirQualityData).measurements ∧
    buildSample envOne [] 0 ⟨⟨10, 20, 15, 30, 5, 2⟩, some 5⟩ =
      buildSample envOne [] 0 ⟨⟨10, 20, 15, 30, 5, 2⟩, none⟩ := by
  have H := index_always_recomputed envOne [⟨1, "A", "t", ⟨10, 20, 15, 30, 5, 2⟩, 28⟩]
    (by decide) ⟨1, "A", "t", ⟨10, 20, 15, 30, 5, 2⟩, 28⟩ (by simp)
  exact ⟨H.1, H.2 [] 0 ⟨10, 20, 15, 30, 5, 2⟩ (some 5) none⟩

/-- Five Bucharest stations as returned by the upstream station listing. -/
def rawFive : List RawStation :=
  [⟨1, "S1", 44, 26, "BUCURESTI", none⟩, ⟨2, "S2", 44, 26, "BUCURESTI", none⟩,
   ⟨3, "S3", 44, 26, "BUCURESTI", none⟩, ⟨4, "S4", 44, 26, "BUCURESTI", none⟩,
   ⟨5, "S5", 44, 26, "BUCURESTI", none⟩]

/-- The same five stations after the Bucharest filter and mapping. -/
def stsFive : List Station :=
  [⟨1, "S1", 44, 26, "BUCURESTI", none⟩, ⟨2, "S2", 44, 26, "BUCURESTI", none⟩,
   ⟨3, "S3", 44, 26, "BUCURESTI", none⟩, ⟨4, "S4", 44, 26, "BUCURESTI", none⟩,
   ⟨5, "S5", 44, 26, "BUCURESTI", none⟩]

/-- Environment where the station listing returns five stations and the
per-station current-measurement call fails for station 3 and succeeds for
the other four. -/
def env5 : Env := { envAllFail with
  stationsResp := some rawFive,
  currentResp := fun i =>
    if i = 3 then none else some ⟨⟨10, 20, 15, 30, 5, 2⟩, none⟩ }

/-- Claim C3 counterexample: with five stations of which exactly one fails,
the batch result of `getCurrentAirQuality` has *four* entries, not five —
the failed station is dropped by the `filter(result !== null)` step and no
per-station fallback sample is substituted. -/
theorem one_of_five_fails_four_entries_cex :
    (CalitateAerService.getCurrentAirQuality env5).map List.length = .ok 4 := by
  decide

/-- Claim C3 (amended): with five stations of which exactly station 3
fails, the batch does not fail and returns exactly the four successful
stations' samples, each carrying a live-derived index (`calculateAQI` of
its own reading); the failed station is absent, and the mean index is
computed over the four present entries. -/
theorem one_of_five_fails_amended (env : Env) (m : ℕ → AirQualityMeasurement)
    (hs : env.stationsResp = some rawFive)
    (hc : ∀ i, env.currentResp i = if i = 3 then none else some ⟨m i, none⟩) :
    CalitateAerService.getCurrentAirQuality env = .ok
      [⟨1, "S1", env.nowISO, m 1, CalitateAerService.calculateAQI (m 1)⟩,
       ⟨2, "S2", env.nowISO, m 2, CalitateAerService.calculateAQI (m 2)⟩,
       ⟨4, "S4", env.nowISO, m 4, CalitateAerService.calculateAQI (m 4)⟩,
       ⟨5, "S5", env.nowISO, m 5, CalitateAerService.calculateAQI (m 5)⟩] ∧
    DataService.calculateAverageAQI
      [⟨1, "S1", env.nowISO, m 1, CalitateAerService.calculateAQI (m 1)⟩,
       ⟨2, "S2", env.nowISO, m 2, CalitateAerService.calculateAQI (m 2)⟩,
       ⟨4, "S4", env.nowISO, m 4, CalitateAerService.calculateAQI (m 4)⟩,
       ⟨5, "S5", env.nowISO, m 5, CalitateAerService.calculateAQI (m 5)⟩] =
      (CalitateAerService.calculateAQI (m 1) + CalitateAerService.calculateAQI (m 2) +
       CalitateAerService.calculateAQI (m 4) + CalitateAerService.calculateAQI (m 5)) / 4 := by
  have hsts : CalitateAerService.getStations env = .ok stsFive := by
    unfold CalitateAerService.getStations
    rw [hs]
    rfl
  constructor
  · unfold CalitateAerService.getCurrentAirQuality
    rw [hsts]
    show Except.ok ((stsFive.map (·.id)).filterMap (perStationCurrent env stsFive)) = _
    simp [stsFive, perStationCurrent, hc, buildSample, List.find?]
  · unfold DataService.calculateAverageAQI
    rw [if_neg (by simp), foldl_add_eq]
    simp only [List.map_cons, List.map_nil, List.sum_cons, List.sum_nil,
      List.length_cons, List.length_nil, zero_add]
    push_cast
    ring

/-- Witness for C3's amended theorem at the concrete environment `env5`
(five stations, station 3 failing, identical readings elsewhere). -/
theorem one_of_five_fails_amended_witness :
    CalitateAerService.getCurrentAirQuality env5 = .ok
      [⟨1, "S1", "t", ⟨10, 20, 15, 30, 5, 2⟩,
         CalitateAerService.calculateAQI ⟨10, 20, 15, 30, 5, 2⟩⟩,
       ⟨2, "S2", "t", ⟨10, 20, 15, 30, 5, 2⟩,
         CalitateAerService.calculateAQI ⟨10, 20, 15, 30, 5, 2⟩⟩,
       ⟨4, "S4", "t", ⟨10, 20, 15, 30, 5, 2⟩,
         CalitateAerService.calculateAQI ⟨10, 20, 15, 30, 5, 2⟩⟩,
       ⟨5, "S5", "t", ⟨10, 20, 15, 30, 5, 2⟩,
         CalitateAerService.calculateAQI ⟨10, 20, 15, 30, 5, 2⟩⟩] ∧
    DataService.calculateAverageAQI
      [⟨1, "S1", "t", ⟨10, 20, 15, 30, 5, 2⟩,
         CalitateAerService.calculateAQI ⟨10, 20, 15, 30, 5, 2⟩⟩,
       ⟨2, "S2", "t", ⟨10, 20, 15, 30, 5, 2⟩,
         CalitateAerService.calculateAQI ⟨10, 20, 15, 30, 5, 2⟩⟩,
       ⟨4, "S4", "t", ⟨10, 20, 15, 30, 5, 2⟩,
         CalitateAerService.calculateAQI ⟨10, 20, 15, 30, 5, 2⟩⟩,
       ⟨5, "S5", "t", ⟨10, 20, 15, 30, 5, 2⟩,
         CalitateAerService.calculateAQI ⟨10, 20, 15, 30, 5, 2⟩⟩] =
      (CalitateAerService.calculateAQI ⟨10, 20, 15, 30, 5, 2⟩ +
       CalitateAerService.calculateAQI ⟨10, 20, 15, 30, 5, 2⟩ +
       CalitateAerService.calculateAQI ⟨10, 20, 15, 30, 5, 2⟩ +
       CalitateAerService.calculateAQI ⟨10, 20, 15, 30, 5, 2⟩) / 4 :=
  one_of_five_fails_amended env5 (fun _ => ⟨10, 20, 15, 30, 5, 2⟩) rfl (fun _ => rfl)
